import Mathlib

/-!
Verification of the duda_postgresql connection layer and pool manager
(src/unnamed/part_000: connection.c followed by pool.c) against its
natural-language specification. The database client library (libpq), the
host event loop, allocator and per-context registry are collaborators:
their outcomes enter the model as explicit oracle inputs. Observable
actions (callbacks, event-loop registration, resource release) are
recorded as an event trace.
-/

namespace DudaPG

/-- Status codes POSTGRESQL_OK / POSTGRESQL_ERR (used throughout part_000). -/
inductive Status
  | ok
  | err
deriving DecidableEq

/-- Connection lifecycle states CONN_STATE_CLOSE / CONN_STATE_CONNECTING /
CONN_STATE_CONNECTED / CONN_STATE_CLOSED, as assigned in part_000
(lines 39, 86, 94, 155). -/
inductive ConnState
  | close
  | connecting
  | connected
  | closed
deriving DecidableEq

/-- Result of one PQconnectPoll step (libpq): PGRES_POLLING_FAILED,
PGRES_POLLING_READING, PGRES_POLLING_WRITING, PGRES_POLLING_OK. The
source tests READING/WRITING with a bitwise and (lines 88-93); on the
actual libpq values (1 and 2) that coincides with equality, which is how
it is modelled here. -/
inductive PollResult
  | failed
  | reading
  | writing
  | ok
deriving DecidableEq

/-- Observable actions of the connection code: caller callbacks, event-loop
registration and deregistration, registry insertion, session teardown
(PQfinish) and freeing of the Connection memory. -/
inductive Ev
  | connectCb (s : Status)
  | disconnectCb (s : Status)
  | eventAdd (fd : Int) (read : Bool) (write : Bool)
  | eventDel (fd : Int)
  | registryAdd
  | pqFinish
  | freeConn
deriving DecidableEq

/-- The fields of postgresql_conn_t that the connection code reads or writes
(queries list omitted: unused by the functions modelled here). The caller
context dr is an opaque id, callbacks are modelled by their presence. -/
structure Conn where
  dr : Option Nat := none
  session : Option Nat := none
  fd : Int := 0
  connect_cb : Bool := false
  disconnect_cb : Bool := false
  state : ConnState := ConnState.close
  disconnect_on_finish : Bool := false
deriving DecidableEq

/-- __postgresql_conn_create (part_000 lines 26-44): fresh connection with the
given context and connect callback; session NULL, fd 0, no disconnect
callback, state CONN_STATE_CLOSE, pending-disconnect flag clear. The
is_pooled / pool fields are NOT initialised by this function (see PConn in
the pool layer below). -/
def connCreate (dr : Option Nat) (cb : Bool) : Conn :=
  { dr := dr, session := none, fd := 0, connect_cb := cb,
    disconnect_cb := false, state := ConnState.close,
    disconnect_on_finish := false }

/-- Oracle inputs for one run of __postgresql_conn_handle_connect: what
PQstatus, PQsetnonblocking, PQsocket and PQconnectPoll report, and whether
the global connection list exists or its allocation succeeds. -/
structure PQEnv where
  statusBad : Bool
  setnbFails : Bool
  socket : Int
  poll : PollResult
  connListOk : Bool
deriving DecidableEq

/-- Events of the cleanup label (part_000 lines 113-115): PQfinish on the
session, then FREE of the connection. -/
def cleanupEvs : List Ev := [Ev.pqFinish, Ev.freeConn]

/-- Tail of __postgresql_conn_handle_connect after the poll branch
(part_000 lines 97-115): event->add with the accumulated interest flags,
then the connection-list registration (goto cleanup if its allocation
fails), then the cleanup label — which the code reaches by FALLING THROUGH
even on the registration path, because no return precedes `cleanup:`. -/
def handleTail (c : Conn) (evs : List Ev) (r w : Bool) (connListOk : Bool) :
    Conn × List Ev :=
  let evs1 := evs ++ [Ev.eventAdd c.fd r w]
  if connListOk then (c, evs1 ++ [Ev.registryAdd] ++ cleanupEvs)
  else (c, evs1 ++ cleanupEvs)

/-- __postgresql_conn_handle_connect (part_000 lines 46-116). A NULL session
is freed silently; a bad status or poll failure reports the connect
callback with POSTGRESQL_ERR and cleans up; poll OK reports the callback
with POSTGRESQL_OK and sets CONNECTED; a pending poll sets CONNECTING with
the corresponding read/write interest. All of those then run handleTail,
whose final events are always the cleanup label. -/
def handleConnect (c : Conn) (pq : PQEnv) : Conn × List Ev :=
  match c.session with
  | none => (c, [Ev.freeConn])
  | some _ =>
    if pq.statusBad then
      (c, (if c.connect_cb then [Ev.connectCb Status.err] else []) ++ cleanupEvs)
    else if pq.setnbFails then
      (c, cleanupEvs)
    else
      let c1 : Conn := { c with fd := pq.socket }
      match pq.poll with
      | PollResult.failed =>
          (c1, (if c1.connect_cb then [Ev.connectCb Status.err] else []) ++ cleanupEvs)
      | PollResult.ok =>
          handleTail { c1 with state := ConnState.connected }
            (if c1.connect_cb then [Ev.connectCb Status.ok] else [])
            false false pq.connListOk
      | PollResult.reading =>
          handleTail { c1 with state := ConnState.connecting } [] true false pq.connListOk
      | PollResult.writing =>
          handleTail { c1 with state := ConnState.connecting } [] false true pq.connListOk

/-- postgresql_conn_connect (part_000 lines 118-132): allocate the connection
(allocOk models monkey mem_alloc, none on failure), store the result of
PQconnectStartParams (startResult, none when the session object could not
be created), run the handshake driver once, and return the connection
pointer UNCONDITIONALLY — also when the driver has already freed it.
postgresql_conn_connect_url (lines 134-147) is the same function with
PQconnectStart; the pool code calls it under the name
postgresql_conn_connect_uri. -/
def postgresql_conn_connect (allocOk : Bool) (dr : Option Nat) (cb : Bool)
    (startResult : Option Nat) (pq : PQEnv) : Option Conn × List Ev :=
  if allocOk then
    let r := handleConnect { connCreate dr cb with session := startResult } pq
    (some r.1, r.2)
  else (none, [])

/-- Release routine of part_000 lines 149-159 (defined there as
__postgresql_conn_handle_release; the pool file calls it as
postgresql_conn_handle_release): event->delete, the disconnect callback if
one is recorded, state CONN_STATE_CLOSED, removal from its list, PQfinish
and FREE. -/
def handleRelease (c : Conn) (s : Status) : Conn × List Ev :=
  ({ c with state := ConnState.closed },
   Ev.eventDel c.fd :: (if c.disconnect_cb then [Ev.disconnectCb s] else []) ++ cleanupEvs)

/-! ## Pool layer (pool.c half of part_000)

postgresql_conn_disconnect (lines 161-169) is deliberately not modelled:
its body assigns conn->disconnect_cb from the identifier disconnect_cb,
which is not in scope (the parameter is named cb), so the translation unit
has no semantics to embed. The pool constants live in pool.h, which is not
among the repository files; they are modelled from the spec below. -/

/-- Modelled from the spec: POSTGRESQL_POOL_DEFAULT_SIZE, the batch used by
the spawn call in postgresql_pool_get_conn and by the shrink loop in
postgresql_pool_reclaim_conn. pool.h is missing from the sources and the
spec gives no number, but it calls max_size a ceiling the pool never
exceeds and asserts free_size ≤ size ≤ max_size across all operations;
since the spawn call has no clamp and fires whenever size < max_size, the
only batch value consistent with that ceiling (and with the worked
scenarios of the spec) is 1. -/
def POSTGRESQL_POOL_DEFAULT_SIZE : Nat := 1

/-- Modelled from the spec: the default floor substituted when a pool is
registered with min_size = 0, and the floor the reclaim shrink loop
actually tests. pool.h is missing and the spec fixes no value; the facts
proved below do not depend on the particular choice (concrete runs merely
instantiate it). -/
def POSTGRESQL_POOL_DEFAULT_MIN_SIZE : Int := 4

/-- Modelled from the spec: the default ceiling substituted when a pool is
registered with max_size = 0. pool.h is missing and the spec fixes no
value. -/
def POSTGRESQL_POOL_DEFAULT_MAX_SIZE : Int := 8

/-- POOL_TYPE_PARAMS / POOL_TYPE_URI. -/
inductive PoolType
  | typeParams
  | typeUri
deriving DecidableEq

/-- postgresql_pool_config_t: the registered descriptor. keys/values hold the
duplicated arrays (none models a NULL pointer field left unset). -/
structure PoolCfg where
  pool_key : Nat
  min_size : Int := 0
  max_size : Int := 0
  keys : Option (List String) := none
  values : Option (List String) := none
  uri : Option String := none
  expand_dbname : Bool := false
  ptype : PoolType := PoolType.typeParams
deriving DecidableEq

/-- Pool-side view of one postgresql_conn_t: the fields the pool code touches.
is_pooled and pool are Option because __postgresql_conn_create never
initialises them; none models a field that was never assigned. -/
structure PConn where
  id : Nat
  is_pooled : Option Bool := none
  pool : Option Nat := none
deriving DecidableEq

/-- postgresql_pool_t: counters (C ints, hence Int) and the two intrusive
lists, the head of free_conns being the entry mk_list_entry_first yields
(the oldest). -/
@[ext] structure Pool where
  size : Int
  free_size : Int
  free_conns : List PConn
  busy_conns : List PConn
  config : PoolCfg
deriving DecidableEq

/-- For-loop of __postgresql_pool_spawn_conn (part_000 lines 203-221).
`results` holds, per planned iteration, the value the
postgresql_conn_connect / _uri call returns: none only when the allocation
inside it fails (that is the sole NULL return), some i an opaque handle.
The loop breaks at the first NULL; each success is marked pooled, linked
to this pool and appended to the free list, and both counters are
incremented. -/
def spawnLoop (p : Pool) : List (Option Nat) → Pool
  | [] => p
  | none :: _ => p
  | some i :: rest =>
      spawnLoop
        { p with
          free_conns := p.free_conns ++
            [{ id := i, is_pooled := some true, pool := some p.config.pool_key }],
          size := p.size + 1, free_size := p.free_size + 1 } rest

/-- __postgresql_pool_spawn_conn (part_000 lines 197-228): run the loop, then
return POSTGRESQL_ERR exactly when free_size is still zero. -/
def __postgresql_pool_spawn_conn (p : Pool) (results : List (Option Nat)) :
    Pool × Status :=
  let q := spawnLoop p results
  (q, if q.free_size = 0 then Status.err else Status.ok)

/-- __postgresql_pool_release_conn (part_000 lines 230-243): pop `n`
connections from the front (oldest) of the free list, mark each
non-pooled, hand it to the connection release routine, and decrement both
counters. The decrements are unconditional exactly as in the C loop;
taking the first entry of an empty free list would be undefined behaviour
in C and is modelled as leaving the list empty while the counters still
drop (the theorems below show the reclaim loop never reaches that case). -/
def __postgresql_pool_release_conn (p : Pool) : Nat → Pool
  | 0 => p
  | Nat.succ n =>
      __postgresql_pool_release_conn
        { p with free_conns := p.free_conns.tail,
                 size := p.size - 1, free_size := p.free_size - 1 } n

/-- Size of the pool after a batch release drops by the batch count. -/
theorem release_size (p : Pool) (n : Nat) :
    (__postgresql_pool_release_conn p n).size = p.size - n := by
  induction n generalizing p with
  | zero => simp [__postgresql_pool_release_conn]
  | succ k ih =>
      rw [__postgresql_pool_release_conn, ih]
      push_cast
      ring

/-- While-loop of postgresql_pool_reclaim_conn (part_000 lines 452-455): as
long as free_size * 2 > size and size exceeds the default floor, release a
batch of POSTGRESQL_POOL_DEFAULT_SIZE connections. The Bool is ghost
instrumentation only: true when some iteration entered the release helper
with fewer than POSTGRESQL_POOL_DEFAULT_SIZE entries in the free list. -/
def shrinkLoop (p : Pool) : Pool × Bool :=
  if p.free_size * 2 > p.size ∧ p.size > POSTGRESQL_POOL_DEFAULT_MIN_SIZE then
    let bad : Bool := decide (p.free_conns.length < POSTGRESQL_POOL_DEFAULT_SIZE)
    let r := shrinkLoop (__postgresql_pool_release_conn p POSTGRESQL_POOL_DEFAULT_SIZE)
    (r.1, bad || r.2)
  else (p, false)
termination_by (p.size - POSTGRESQL_POOL_DEFAULT_MIN_SIZE).toNat
decreasing_by
  simp only [release_size, POSTGRESQL_POOL_DEFAULT_SIZE]
  omega

/-- Pre-loop statements of postgresql_pool_reclaim_conn (part_000 lines
443-450): the caller-specific connection fields are cleared (not tracked
at this layer), mk_list_del removes the node from the list holding it —
the busy list for a borrowed connection — and it is appended to the free
list with free_size incremented; size is untouched. -/
def reclaimPre (p : Pool) (c : PConn) : Pool :=
  { p with busy_conns := p.busy_conns.erase c,
           free_conns := p.free_conns ++ [c],
           free_size := p.free_size + 1 }

/-- postgresql_pool_reclaim_conn (part_000 lines 439-456). -/
def postgresql_pool_reclaim_conn (p : Pool) (c : PConn) : Pool :=
  (shrinkLoop (reclaimPre p c)).1

/-- Foreach body of __postgresql_pool_get_config: config is assigned the
current entry, and the loop breaks when that entry matches the key;
otherwise the cursor keeps the last entry visited. -/
def getConfigLoop (key : Nat) (cur : PoolCfg) : List PoolCfg → PoolCfg
  | [] => cur
  | x :: rest => if x.pool_key = key then x else getConfigLoop key x rest

/-- __postgresql_pool_get_config (part_000 lines 245-258): config starts NULL
and is only NULL on return when the registry list is empty; with a
non-empty registry and no matching key the foreach leaves config at the
LAST entry, which is returned. -/
def __postgresql_pool_get_config (key : Nat) : List PoolCfg → Option PoolCfg
  | [] => none
  | x :: rest => some (if x.pool_key = key then x else getConfigLoop key x rest)

/-- Oracle inputs for one postgresql_pool_get_conn call: whether the pool
allocation succeeds, the per-iteration outcomes feeding a spawn call, and
the handle a direct postgresql_conn_connect fallback returns (none only
when the allocation inside it fails). -/
structure AcqEnv where
  poolAllocOk : Bool := true
  spawnResults : List (Option Nat) := []
  directResult : Option Nat := none
deriving DecidableEq

/-- What postgresql_pool_get_conn hands back: NULL; a connection taken from
the free list (cbInvoked records that the caller connect callback was
invoked synchronously with POSTGRESQL_OK); or the value of the direct
connect fallback, which is called with the caller context and callback
and whose result is returned as is. -/
inductive AcquireOut
  | null
  | reused (c : PConn) (cbInvoked : Bool)
  | direct (dr : Option Nat) (cb : Bool) (result : Option PConn)
deriving DecidableEq

/-- Result of postgresql_pool_get_conn: the per-context registry slot for the
pool key after the call (global get/set) and the returned value. -/
structure AcqRes where
  reg : Option Pool
  out : AcquireOut
deriving DecidableEq

/-- Lines 424-436 of part_000: take the first free connection, rebind its
context and connect callback, invoke the callback synchronously with
POSTGRESQL_OK, move the node from free to busy (appended at the tail) and
decrement free_size. mk_list_entry_first on an empty free list would be
undefined behaviour in C; it is modelled as returning NULL (the theorems
show coherent states never reach it). -/
def takeFirst (p : Pool) (cb : Bool) : AcqRes :=
  match p.free_conns with
  | [] => { reg := some p, out := AcquireOut.null }
  | c :: rest =>
      { reg := some { p with free_conns := rest,
                             busy_conns := p.busy_conns ++ [c],
                             free_size := p.free_size - 1 },
        out := AcquireOut.reused c cb }

/-- Lines 404-436 of part_000, after the pool is resolved. Monkey
mk_list_is_empty returns 0 exactly when the list IS empty, so the branch
at line 405 is entered when the free list is empty: below max_size it
spawns a batch of POSTGRESQL_POOL_DEFAULT_SIZE (NULL on total failure), at
max_size it returns a direct postgresql_conn_connect / _uri call made with
the caller context and callback, touching neither the counters nor the
lists. -/
def getConnBody (p : Pool) (dr : Option Nat) (cb : Bool) (env : AcqEnv) : AcqRes :=
  if p.free_conns.isEmpty then
    if p.size < p.config.max_size then
      match __postgresql_pool_spawn_conn p (env.spawnResults.take POSTGRESQL_POOL_DEFAULT_SIZE) with
      | (q, Status.err) => { reg := some q, out := AcquireOut.null }
      | (q, Status.ok) => takeFirst q cb
    else
      { reg := some p,
        out := AcquireOut.direct dr cb (env.directResult.map (fun i => { id := i })) }
  else takeFirst p cb

/-- postgresql_pool_get_conn (part_000 lines 373-437): resolve the pool from
the per-context registry, lazily creating it — NULL if its allocation
fails, NULL (with the fresh pool freed) if the configuration lookup
returns NULL — registering the fresh instance before use; then run the
body. -/
def postgresql_pool_get_conn (key : Nat) (configs : List PoolCfg)
    (reg : Option Pool) (dr : Option Nat) (cb : Bool) (env : AcqEnv) : AcqRes :=
  match reg with
  | some p => getConnBody p dr cb env
  | none =>
    if env.poolAllocOk then
      match __postgresql_pool_get_config key configs with
      | none => { reg := none, out := AcquireOut.null }
      | some cfg =>
          getConnBody
            { size := 0, free_size := 0, free_conns := [], busy_conns := [],
              config := cfg } dr cb env
    else { reg := none, out := AcquireOut.null }

/-! ## Registration by parameters (part_000 lines 273-323) -/

/-- Length-counting loop of postgresql_pool_params_create (lines 283-288):
`ptr = keys; while (*ptr != NULL) ...` dereferences the array with NO null
check first, so a NULL keys argument is undefined behaviour (none). -/
def strArrayLen : Option (List String) → Option Nat
  | none => none
  | some xs => some xs.length

/-- One copy loop of postgresql_pool_params_create (lines 293-295 and
301-303): read src[i] and duplicate it for every i below n. Reading at or
past the terminator of src is undefined behaviour (none); the recursion
unrolls the loop from its last index, performing the same set of reads. -/
def copyStrArray (src : List String) : Nat → Option (List String)
  | 0 => some []
  | Nat.succ n =>
      match copyStrArray src n, src.get? n with
      | some acc, some s => some (acc ++ [s])
      | _, _ => none

/-- Lines 291-297: the keys copy runs only under `if (keys)`, duplicating
keys[0..length-1] and NULL-terminating. -/
def keysCopyStep (keys : Option (List String)) (n : Nat) :
    Option (Option (List String)) :=
  match keys with
  | none => some none
  | some ks => (copyStrArray ks n).map some

/-- Lines 299-305: the values copy runs only under `if (values)`, duplicating
values[0..length-1] — with length counted from KEYS — and
NULL-terminating. -/
def valuesCopyStep (values : Option (List String)) (n : Nat) :
    Option (Option (List String)) :=
  match values with
  | none => some none
  | some vs => (copyStrArray vs n).map some

/-- postgresql_pool_params_create (part_000 lines 273-323). Result none means
the run hits undefined behaviour (a NULL dereference or an out-of-bounds
read); some (err, none) is the allocation-failure return; some (ok, cfg)
is a successful registration of cfg (appended to the config registry
list). min_size and max_size fall back to the default constants when
given as zero. -/
def postgresql_pool_params_create (allocOk : Bool) (key : Nat)
    (minS maxS : Int) (keys values : Option (List String)) (expand : Bool) :
    Option (Status × Option PoolCfg) :=
  if allocOk then
    match strArrayLen keys with
    | none => none
    | some length =>
      match keysCopyStep keys length with
      | none => none
      | some kc =>
        match valuesCopyStep values length with
        | none => none
        | some vc =>
            some (Status.ok, some
              { pool_key := key,
                min_size := if minS = 0 then POSTGRESQL_POOL_DEFAULT_MIN_SIZE else minS,
                max_size := if maxS = 0 then POSTGRESQL_POOL_DEFAULT_MAX_SIZE else maxS,
                keys := kc, values := vc,
                expand_dbname := expand, ptype := PoolType.typeParams })
  else some (Status.err, none)

/-! ## Connection-layer claim theorems -/

/-- C1: a handshake whose poll-step reports completion does invoke
onConnect(OK) exactly once, set the state to CONNECTED and register the
socket with no read/write interest — but the trace then ends with PQfinish
and FREE: control falls through into the cleanup label (no return precedes
it), so the session and the Connection memory ARE released, refuting the
part of the claim that the Connection object stays live. -/
theorem C1_success_path_releases_connection :
    handleConnect
        { connCreate (some 7) true with session := some 1 }
        { statusBad := false, setnbFails := false, socket := 5,
          poll := PollResult.ok, connListOk := true }
      = ({ dr := some 7, session := some 1, fd := 5, connect_cb := true,
           disconnect_cb := false, state := ConnState.connected,
           disconnect_on_finish := false },
         [Ev.connectCb Status.ok, Ev.eventAdd 5 false false, Ev.registryAdd,
          Ev.pqFinish, Ev.freeConn]) := by
  rfl

/-- C4: when PQconnectStartParams yields no session object, the connect
operation releases what it allocated (the single FREE in the trace) and
invokes no callback, but postgresql_conn_connect still returns the —
already freed — non-null handle instead of the null result the claim
requires. -/
theorem C4_null_session_returns_nonnull_freed_handle :
    postgresql_conn_connect true (some 3) true none
        { statusBad := false, setnbFails := false, socket := 0,
          poll := PollResult.failed, connListOk := true }
      = (some { dr := some 3, session := none, fd := 0, connect_cb := true,
                disconnect_cb := false, state := ConnState.close,
                disconnect_on_finish := false },
         [Ev.freeConn]) := by
  rfl

/-- C5: on the only path that leaves a connection in state CONNECTING (a
pending poll-step), the handshake driver still falls through into cleanup:
the trace ends with PQfinish and FREE while the state says CONNECTING. The
connection a deferred disconnect would rely on is therefore destroyed
before postgresql_conn_disconnect could ever set its pending flag, and no
later handshake callback exists to observe disconnect_on_finish (which no
code in the sources reads). -/
theorem C5_pending_handshake_frees_connection :
    handleConnect
        { connCreate (some 2) true with session := some 1 }
        { statusBad := false, setnbFails := false, socket := 4,
          poll := PollResult.reading, connListOk := true }
      = ({ dr := some 2, session := some 1, fd := 4, connect_cb := true,
           disconnect_cb := false, state := ConnState.connecting,
           disconnect_on_finish := false },
         [Ev.eventAdd 4 true false, Ev.registryAdd, Ev.pqFinish, Ev.freeConn]) := by
  rfl

/-! ## Pool-layer helper lemmas -/

/-- Handles of the spawn attempts that succeed before the first failure. -/
def successRun : List (Option Nat) → List Nat
  | [] => []
  | none :: _ => []
  | some i :: rest => i :: successRun rest

/-- The newly pooled connection built for handle i by the spawn loop. -/
def mkPooled (key : Nat) (i : Nat) : PConn :=
  { id := i, is_pooled := some true, pool := some key }

/-- Closed form of the spawn loop: it appends exactly the prefix of
successful opens to the free list, all marked pooled and linked to the
pool, and bumps both counters by that prefix length. -/
theorem spawnLoop_eq (results : List (Option Nat)) (p : Pool) :
    spawnLoop p results
      = { p with
          free_conns := p.free_conns ++ (successRun results).map (mkPooled p.config.pool_key),
          size := p.size + (successRun results).length,
          free_size := p.free_size + (successRun results).length } := by
  induction results generalizing p with
  | nil =>
      simp [spawnLoop, successRun]
  | cons head rest ih =>
      cases head with
      | none => simp [spawnLoop, successRun]
      | some i =>
          rw [spawnLoop, ih]
          ext <;> simp [successRun, mkPooled] <;> ring

/-- C7: __postgresql_pool_spawn_conn opens connections one at a time and
stops at the first that fails to open; each success is marked pooled,
linked to this pool and appended to the free set with size and free_size
each incremented once; the call reports failure exactly when free_size is
zero after the attempt, so partial success counts as success. -/
theorem C7_spawn_conn_characterization (p : Pool) (results : List (Option Nat)) :
    __postgresql_pool_spawn_conn p results
      = ({ p with
           free_conns := p.free_conns ++ (successRun results).map (mkPooled p.config.pool_key),
           size := p.size + (successRun results).length,
           free_size := p.free_size + (successRun results).length },
         if p.free_size + (successRun results).length = 0 then Status.err
         else Status.ok) := by
  rw [__postgresql_pool_spawn_conn, spawnLoop_eq]

/-- C7 witness: a concrete spawn of three planned opens whose second fails:
one connection is added, both counters grow by one, and the partial
success is reported as POSTGRESQL_OK. -/
theorem C7_spawn_witness :
    __postgresql_pool_spawn_conn
        { size := 0, free_size := 0, free_conns := [], busy_conns := [],
          config := { pool_key := 6 } }
        [some 11, none, some 12]
      = ({ size := 1, free_size := 1,
           free_conns := [{ id := 11, is_pooled := some true, pool := some 6 }],
           busy_conns := [],
           config := { pool_key := 6 } },
         Status.ok) := by
  have h := C7_spawn_conn_characterization
    { size := 0, free_size := 0, free_conns := [], busy_conns := [],
      config := { pool_key := 6 } }
    [some 11, none, some 12]
  simpa [successRun, mkPooled] using h

/-- Counter/collection coherence of a pool: the invariant of spec section 8
together with the list-agreement facts that make it inductive. -/
def PoolInv (p : Pool) : Prop :=
  0 ≤ p.free_size ∧ p.free_size ≤ p.size ∧ p.size ≤ p.config.max_size ∧
  p.free_size = (p.free_conns.length : Int) ∧
  p.size = (p.free_conns.length : Int) + (p.busy_conns.length : Int)

instance (p : Pool) : Decidable (PoolInv p) := by
  unfold PoolInv
  infer_instance

/-- Releasing a batch of one pops exactly the head of the free list and
decrements both counters once. -/
theorem release_one (p : Pool) :
    __postgresql_pool_release_conn p POSTGRESQL_POOL_DEFAULT_SIZE
      = { p with free_conns := p.free_conns.tail,
                 size := p.size - 1, free_size := p.free_size - 1 } := rfl

/-- Behaviour of the reclaim shrink loop from any coherent state: the ghost
underflow flag stays false (every release is invoked with at least the
batch of connections available), the counters stay non-negative and
coherent with the lists, the size never grows and the busy list is
untouched. -/
theorem shrinkLoop_spec (p : Pool) :
    0 ≤ p.free_size → p.free_size ≤ p.size →
    p.free_size = (p.free_conns.length : Int) →
    p.size = (p.free_conns.length : Int) + (p.busy_conns.length : Int) →
    (shrinkLoop p).2 = false ∧
    0 ≤ (shrinkLoop p).1.free_size ∧
    (shrinkLoop p).1.free_size ≤ (shrinkLoop p).1.size ∧
    (shrinkLoop p).1.size ≤ p.size ∧
    (shrinkLoop p).1.free_size = ((shrinkLoop p).1.free_conns.length : Int) ∧
    (shrinkLoop p).1.size
      = ((shrinkLoop p).1.free_conns.length : Int) + ((shrinkLoop p).1.busy_conns.length : Int) ∧
    (shrinkLoop p).1.busy_conns = p.busy_conns ∧
    (shrinkLoop p).1.config = p.config := by
  induction p using shrinkLoop.induct with
  | case1 p hguard ih =>
      intro h0 h1 h2 h3
      have hfree1 : 1 ≤ p.free_size := by omega
      have hlen1 : 1 ≤ p.free_conns.length := by omega
      have htail : (p.free_conns.tail).length = p.free_conns.length - 1 :=
        List.length_tail p.free_conns
      rw [release_one] at ih
      have ih2 := ih (by dsimp; omega) (by dsimp; omega)
        (by dsimp; rw [htail]; omega)
        (by dsimp; rw [htail]; omega)
      obtain ⟨ihflag, ih0, ih1, ihsz, ihcoh1, ihcoh2, ihbusy, ihcfg⟩ := ih2
      unfold shrinkLoop
      rw [if_pos hguard]
      rw [release_one]
      dsimp only
      refine ⟨?_, ih0, ih1, ?_, ihcoh1, ihcoh2, ?_, ?_⟩
      · rw [Bool.or_eq_false_iff]
        refine ⟨decide_eq_false ?_, ihflag⟩
        simp only [POSTGRESQL_POOL_DEFAULT_SIZE]
        omega
      · dsimp at ihsz
        omega
      · exact ihbusy
      · exact ihcfg
  | case2 p hguard =>
      intro h0 h1 h2 h3
      unfold shrinkLoop
      rw [if_neg hguard]
      exact ⟨rfl, h0, h1, le_refl _, h2, h3, rfl, rfl⟩

/-- The successful prefix of a spawn attempt list is no longer than the list. -/
theorem successRun_length_le (results : List (Option Nat)) :
    (successRun results).length ≤ results.length := by
  induction results with
  | nil => simp [successRun]
  | cons head rest ih =>
      cases head with
      | none => simp [successRun]
      | some i =>
          rw [successRun]
          simpa using ih

/-- Spawning with a batch of at most POSTGRESQL_POOL_DEFAULT_SIZE planned
opens, started while size < max_size, preserves the pool invariant. -/
theorem spawn_inv (p : Pool) (results : List (Option Nat)) (hp : PoolInv p)
    (hmax : p.size < p.config.max_size)
    (hlen : results.length ≤ POSTGRESQL_POOL_DEFAULT_SIZE) :
    PoolInv (__postgresql_pool_spawn_conn p results).1 := by
  obtain ⟨h0, h1, h2, h3, h4⟩ := hp
  have hle := successRun_length_le results
  have hb : (successRun results).length ≤ 1 := by
    simp only [POSTGRESQL_POOL_DEFAULT_SIZE] at hlen
    omega
  show PoolInv (spawnLoop p results)
  rw [spawnLoop_eq]
  refine ⟨?_, ?_, ?_, ?_, ?_⟩ <;> dsimp <;>
    try simp only [List.length_append, List.length_map]
  all_goals omega

/-- Taking the first free connection preserves the pool invariant. -/
theorem takeFirst_inv (p : Pool) (cb : Bool) (hp : PoolInv p) (q : Pool)
    (hq : (takeFirst p cb).reg = some q) : PoolInv q := by
  obtain ⟨h0, h1, h2, h3, h4⟩ := hp
  cases hfc : p.free_conns with
  | nil =>
      rw [takeFirst, hfc] at hq
      cases hq
      exact ⟨h0, h1, h2, h3, h4⟩
  | cons c rest =>
      rw [takeFirst, hfc] at hq
      cases hq
      rw [hfc] at h3 h4
      simp only [List.length_cons] at h3 h4
      refine ⟨?_, ?_, h2, ?_, ?_⟩
      · dsimp
        omega
      · dsimp
        omega
      · dsimp
        omega
      · dsimp
        simp only [List.length_append, List.length_cons, List.length_nil]
        omega

/-- The config the lookup loop ends at is one of the entries it visited. -/
theorem getConfigLoop_mem (key : Nat) (l : List PoolCfg) (cur : PoolCfg) :
    getConfigLoop key cur l ∈ cur :: l := by
  induction l generalizing cur with
  | nil => simp [getConfigLoop]
  | cons x rest ih =>
      rw [getConfigLoop]
      by_cases hx : x.pool_key = key
      · simp [hx]
      · rw [if_neg hx]
        have hm := ih x
        rcases List.mem_cons.mp hm with h | h
        · rw [h]
          simp
        · exact List.mem_cons_of_mem cur (List.mem_cons_of_mem x h)

/-- A configuration the lookup returns is a member of the registry list. -/
theorem get_config_mem (key : Nat) (configs : List PoolCfg) (c : PoolCfg)
    (h : __postgresql_pool_get_config key configs = some c) : c ∈ configs := by
  cases configs with
  | nil => cases h
  | cons x rest =>
      rw [__postgresql_pool_get_config] at h
      cases h
      by_cases hx : x.pool_key = key
      · simp [hx]
      · rw [if_neg hx]
        exact getConfigLoop_mem key rest x

/-- The body of get_conn preserves the pool invariant of the registered pool. -/
theorem getConnBody_inv (p : Pool) (dr : Option Nat) (cb : Bool) (env : AcqEnv)
    (hp : PoolInv p) (q : Pool) (hq : (getConnBody p dr cb env).reg = some q) :
    PoolInv q := by
  rw [getConnBody] at hq
  by_cases hfc : p.free_conns.isEmpty
  · rw [if_pos hfc] at hq
    by_cases hm : p.size < p.config.max_size
    · rw [if_pos hm] at hq
      have hlen : (env.spawnResults.take POSTGRESQL_POOL_DEFAULT_SIZE).length
          ≤ POSTGRESQL_POOL_DEFAULT_SIZE := by
        rw [List.length_take]
        exact min_le_left _ _
      have hsp := spawn_inv p (env.spawnResults.take POSTGRESQL_POOL_DEFAULT_SIZE) hp hm hlen
      rcases he : __postgresql_pool_spawn_conn p (env.spawnResults.take POSTGRESQL_POOL_DEFAULT_SIZE)
        with ⟨q1, st⟩
      rw [he] at hq hsp
      cases st with
      | err =>
          cases hq
          exact hsp
      | ok =>
          exact takeFirst_inv q1 cb hsp q hq
    · rw [if_neg hm] at hq
      cases hq
      exact hp
  · rw [if_neg hfc] at hq
    exact takeFirst_inv p cb hp q hq

/-- Pre-loop reclaim state facts: for a connection taken from the busy list,
the counters stay coherent, free_size stays below size and size is
unchanged. -/
theorem reclaimPre_facts (p : Pool) (c : PConn) (hp : PoolInv p)
    (hc : c ∈ p.busy_conns) :
    0 ≤ (reclaimPre p c).free_size ∧
    (reclaimPre p c).free_size ≤ (reclaimPre p c).size ∧
    (reclaimPre p c).free_size = ((reclaimPre p c).free_conns.length : Int) ∧
    (reclaimPre p c).size
      = ((reclaimPre p c).free_conns.length : Int) + ((reclaimPre p c).busy_conns.length : Int) ∧
    (reclaimPre p c).size = p.size := by
  obtain ⟨h0, h1, h2, h3, h4⟩ := hp
  have herase : (p.busy_conns.erase c).length = p.busy_conns.length - 1 :=
    List.length_erase_of_mem hc
  have hmem : 1 ≤ p.busy_conns.length := List.length_pos.mpr (List.ne_nil_of_mem hc)
  refine ⟨?_, ?_, ?_, ?_, ?_⟩ <;> dsimp [reclaimPre] <;>
    try simp only [List.length_append, List.length_cons, List.length_nil, herase]
  all_goals omega

/-- C2: every pool operation preserves 0 ≤ free_size ≤ size ≤ max_size
(stated together with the list coherence that makes the invariant
inductive): spawning — which get_conn triggers only while size < max_size
and only with a batch of POSTGRESQL_POOL_DEFAULT_SIZE — cannot push size
past max_size; an acquire leaves whatever pool it registers invariant
(given that every registered configuration has a non-negative ceiling);
and reclaiming a busy connection, shrink loop included, preserves the
invariant. -/
theorem C2_pool_ops_preserve_invariant :
    (∀ p results, PoolInv p → p.size < p.config.max_size →
        results.length ≤ POSTGRESQL_POOL_DEFAULT_SIZE →
        PoolInv (__postgresql_pool_spawn_conn p results).1) ∧
    (∀ key configs reg dr cb env q,
        (∀ p, reg = some p → PoolInv p) →
        (∀ c, c ∈ configs → 0 ≤ c.max_size) →
        (postgresql_pool_get_conn key configs reg dr cb env).reg = some q →
        PoolInv q) ∧
    (∀ p c, PoolInv p → c ∈ p.busy_conns →
        PoolInv (postgresql_pool_reclaim_conn p c)) := by
  refine ⟨fun p results hp hm hl => spawn_inv p results hp hm hl, ?_, ?_⟩
  · intro key configs reg dr cb env q hreg hcfg hq
    cases reg with
    | some p =>
        exact getConnBody_inv p dr cb env (hreg p rfl) q hq
    | none =>
        rw [postgresql_pool_get_conn] at hq
        by_cases hA : env.poolAllocOk
        · rw [if_pos hA] at hq
          rcases hgc : __postgresql_pool_get_config key configs with _ | cfg
          · rw [hgc] at hq
            cases hq
          · rw [hgc] at hq
            have hmax := hcfg cfg (get_config_mem key configs cfg hgc)
            exact getConnBody_inv _ dr cb env
              ⟨le_refl 0, le_refl 0, hmax, by simp, by simp⟩ q hq
        · rw [if_neg hA] at hq
          cases hq
  · intro p c hp hc
    obtain ⟨hr0, hr1, hr2, hr3, hrsz⟩ := reclaimPre_facts p c hp hc
    obtain ⟨hf, s0, s1, ssz, sc1, sc2, sbusy, scfg⟩ :=
      shrinkLoop_spec (reclaimPre p c) hr0 hr1 hr2 hr3
    refine ⟨s0, s1, ?_, sc1, sc2⟩
    have hcfg2 : (shrinkLoop (reclaimPre p c)).1.config = p.config := scfg
    show (shrinkLoop (reclaimPre p c)).1.size
        ≤ (shrinkLoop (reclaimPre p c)).1.config.max_size
    rw [hcfg2]
    calc (shrinkLoop (reclaimPre p c)).1.size ≤ (reclaimPre p c).size := ssz
      _ = p.size := hrsz
      _ ≤ p.config.max_size := hp.2.2.1

/-- C2 witness: the reclaim clause applied to a concrete two-connection pool. -/
theorem C2_pool_ops_preserve_invariant_witness :
    PoolInv (postgresql_pool_reclaim_conn
      { size := 2, free_size := 1, free_conns := [{ id := 1 }],
        busy_conns := [{ id := 2 }],
        config := { pool_key := 0, min_size := 2, max_size := 4 } }
      { id := 2 }) :=
  C2_pool_ops_preserve_invariant.2.2
    { size := 2, free_size := 1, free_conns := [{ id := 1 }],
      busy_conns := [{ id := 2 }],
      config := { pool_key := 0, min_size := 2, max_size := 4 } }
    { id := 2 } (by decide) (by decide)

/-- C9: whenever the shrink loop that postgresql_pool_reclaim_conn runs
invokes the batch-release helper, the free list holds at least
POSTGRESQL_POOL_DEFAULT_SIZE connections (the ghost underflow flag of
shrinkLoop stays false), so the helper never pops an empty free list, and
the loop leaves both counters non-negative. -/
theorem C9_shrink_release_never_underflows (p : Pool) (c : PConn)
    (hp : PoolInv p) (hc : c ∈ p.busy_conns) :
    (shrinkLoop (reclaimPre p c)).2 = false ∧
    0 ≤ (shrinkLoop (reclaimPre p c)).1.free_size ∧
    0 ≤ (shrinkLoop (reclaimPre p c)).1.size ∧
    postgresql_pool_reclaim_conn p c = (shrinkLoop (reclaimPre p c)).1 := by
  obtain ⟨hr0, hr1, hr2, hr3, hrsz⟩ := reclaimPre_facts p c hp hc
  obtain ⟨hf, s0, s1, ssz, sc1, sc2, sbusy, scfg⟩ :=
    shrinkLoop_spec (reclaimPre p c) hr0 hr1 hr2 hr3
  exact ⟨hf, s0, le_trans s0 s1, rfl⟩

/-- C9 witness: the shrink loop run by reclaiming the only busy connection of
a concrete five-connection pool underflows nothing. -/
theorem C9_shrink_release_never_underflows_witness :
    (shrinkLoop (reclaimPre
        { size := 5, free_size := 2,
          free_conns := [{ id := 1 }, { id := 2 }],
          busy_conns := [{ id := 3 }, { id := 4 }, { id := 5 }],
          config := { pool_key := 0, min_size := 4, max_size := 8 } }
        { id := 3 })).2 = false ∧
    0 ≤ (shrinkLoop (reclaimPre
        { size := 5, free_size := 2,
          free_conns := [{ id := 1 }, { id := 2 }],
          busy_conns := [{ id := 3 }, { id := 4 }, { id := 5 }],
          config := { pool_key := 0, min_size := 4, max_size := 8 } }
        { id := 3 })).1.free_size ∧
    0 ≤ (shrinkLoop (reclaimPre
        { size := 5, free_size := 2,
          free_conns := [{ id := 1 }, { id := 2 }],
          busy_conns := [{ id := 3 }, { id := 4 }, { id := 5 }],
          config := { pool_key := 0, min_size := 4, max_size := 8 } }
        { id := 3 })).1.size ∧
    postgresql_pool_reclaim_conn
        { size := 5, free_size := 2,
          free_conns := [{ id := 1 }, { id := 2 }],
          busy_conns := [{ id := 3 }, { id := 4 }, { id := 5 }],
          config := { pool_key := 0, min_size := 4, max_size := 8 } }
        { id := 3 }
      = (shrinkLoop (reclaimPre
        { size := 5, free_size := 2,
          free_conns := [{ id := 1 }, { id := 2 }],
          busy_conns := [{ id := 3 }, { id := 4 }, { id := 5 }],
          config := { pool_key := 0, min_size := 4, max_size := 8 } }
        { id := 3 })).1 :=
  C9_shrink_release_never_underflows
    { size := 5, free_size := 2,
      free_conns := [{ id := 1 }, { id := 2 }],
      busy_conns := [{ id := 3 }, { id := 4 }, { id := 5 }],
      config := { pool_key := 0, min_size := 4, max_size := 8 } }
    { id := 3 } (by decide) (by decide)

/-! ## C3: the shrink loop tests the default floor, not the configured one -/

/-- Configuration registered with min_size 5, above the default floor. -/
def cfgC3 : PoolCfg := { pool_key := 1, min_size := 5, max_size := 8 }

/-- A coherent pool of five connections (two free, three busy) under cfgC3. -/
def poolC3 : Pool :=
  { size := 5, free_size := 2,
    free_conns := [mkPooled 1 1, mkPooled 1 2],
    busy_conns := [mkPooled 1 3, mkPooled 1 4, mkPooled 1 5],
    config := cfgC3 }

/-- State of poolC3 right after reclaiming connection 3, before the loop. -/
def preC3 : Pool :=
  { size := 5, free_size := 3,
    free_conns := [mkPooled 1 1, mkPooled 1 2, mkPooled 1 3],
    busy_conns := [mkPooled 1 4, mkPooled 1 5],
    config := cfgC3 }

/-- State after one shrink iteration: size 4, below the configured floor 5. -/
def midC3 : Pool :=
  { size := 4, free_size := 2,
    free_conns := [mkPooled 1 2, mkPooled 1 3],
    busy_conns := [mkPooled 1 4, mkPooled 1 5],
    config := cfgC3 }

/-- C3: reclaiming a busy connection of poolC3 — whose registered
configuration has min_size 5 — runs one shrink iteration (the loop at
part_000 line 452 compares size with POSTGRESQL_POOL_DEFAULT_MIN_SIZE, not
with config->min_size, which no code ever reads) and returns with size 4,
strictly below the configured minimum, refuting the claim. -/
theorem C3_reclaim_shrinks_below_configured_min :
    poolC3.config.min_size = 5 ∧
    (postgresql_pool_reclaim_conn poolC3 (mkPooled 1 3)).size = 4 ∧
    (postgresql_pool_reclaim_conn poolC3 (mkPooled 1 3)).size
      < poolC3.config.min_size := by
  have step1 : shrinkLoop midC3 = (midC3, false) := by
    unfold shrinkLoop
    rw [if_neg (by decide)]
  have hrel : __postgresql_pool_release_conn preC3 POSTGRESQL_POOL_DEFAULT_SIZE = midC3 := by
    decide
  have step0 : shrinkLoop preC3 = (midC3, false) := by
    unfold shrinkLoop
    rw [if_pos (by decide), hrel, step1]
    decide
  have hrun : postgresql_pool_reclaim_conn poolC3 (mkPooled 1 3) = midC3 := by
    rw [postgresql_pool_reclaim_conn]
    have hpre : reclaimPre poolC3 (mkPooled 1 3) = preC3 := by decide
    rw [hpre, step0]
  rw [hrun]
  exact ⟨rfl, rfl, by decide⟩

/-! ## C6: configuration lookup under an unregistered key -/

/-- A registered configuration under pool key 1. -/
def cfgC6 : PoolCfg := { pool_key := 1, min_size := 2, max_size := 4 }

/-- C6 counterexample: acquiring under the UNREGISTERED key 2 while the
registry holds only a configuration for key 1 does NOT fail: the lookup
loop leaves config at the last entry, the pool is created with key 1
settings, one connection is spawned and handed to the caller. -/
theorem C6_counterexample :
    postgresql_pool_get_conn 2 [cfgC6] none (some 9) true
        { poolAllocOk := true, spawnResults := [some 11], directResult := none }
      = { reg := some { size := 1, free_size := 0, free_conns := [],
                        busy_conns := [mkPooled 1 11], config := cfgC6 },
          out := AcquireOut.reused (mkPooled 1 11) true } ∧
    (postgresql_pool_get_conn 2 [cfgC6] none (some 9) true
        { poolAllocOk := true, spawnResults := [some 11], directResult := none }).out
      ≠ AcquireOut.null := by
  decide

/-- The last element of a cons list, phrased through getLast? of its tail. -/
theorem getLast?_cons_eq (x : PoolCfg) (rest : List PoolCfg) :
    (x :: rest).getLast? = some (rest.getLast?.getD x) := by
  induction rest generalizing x with
  | nil => rfl
  | cons y t ih =>
      rw [List.getLast?_cons_cons, ih y]
      rfl

/-- With no entry matching the key, the lookup loop ends at the last entry
visited (the cursor when the list is exhausted). -/
theorem getConfigLoop_nomatch (key : Nat) (l : List PoolCfg) :
    (∀ x, x ∈ l → x.pool_key ≠ key) →
    ∀ cur, getConfigLoop key cur l = l.getLast?.getD cur := by
  induction l with
  | nil =>
      intro _ cur
      rfl
  | cons x rest ih =>
      intro hno cur
      rw [getConfigLoop, if_neg (hno x (by simp))]
      rw [ih (fun z hz => hno z (by simp [hz])) x]
      rw [getLast?_cons_eq]
      rfl

/-- C6 amended: with an unregistered key, the acquire fails with a null
result only when the configuration registry is EMPTY; with a non-empty
registry the lookup instead returns the LAST registered configuration, and
the acquire proceeds with it. -/
theorem C6_amended (key : Nat) (configs : List PoolCfg) (dr : Option Nat)
    (cb : Bool) (env : AcqEnv)
    (hnomatch : ∀ c, c ∈ configs → c.pool_key ≠ key) :
    __postgresql_pool_get_config key configs = configs.getLast? ∧
    (configs = [] →
      postgresql_pool_get_conn key configs none dr cb env
        = { reg := none, out := AcquireOut.null }) := by
  constructor
  · cases configs with
    | nil => rfl
    | cons x rest =>
        rw [__postgresql_pool_get_config]
        rw [if_neg (hnomatch x (by simp))]
        rw [getConfigLoop_nomatch key rest (fun z hz => hnomatch z (by simp [hz])) x]
        rw [getLast?_cons_eq]
  · intro hnil
    subst hnil
    obtain ⟨a, s, d⟩ := env
    cases a <;> rfl

/-- C6 witness: the amended statement at key 5 against the one-entry registry. -/
theorem C6_amended_witness :
    __postgresql_pool_get_config 5 [cfgC6] = [cfgC6].getLast? ∧
    ([cfgC6] = [] →
      postgresql_pool_get_conn 5 [cfgC6] none none false {}
        = { reg := none, out := AcquireOut.null }) :=
  C6_amended 5 [cfgC6] none false {} (by decide)

/-! ## C8: acquire at max_size with an empty free set -/

/-- A pool at its ceiling: size 4 = max_size, free set empty, four busy. -/
def poolC8 : Pool :=
  { size := 4, free_size := 0, free_conns := [],
    busy_conns := [mkPooled 1 1, mkPooled 1 2, mkPooled 1 3, mkPooled 1 4],
    config := cfgC6 }

/-- C8 counterexample: the fallback connection (id 99) is handed straight to
the caller; the registered pool is byte-for-byte unchanged and the new
connection is NOT in its busy list, refuting the claim that it is tracked
under the busy accounting of the pool. -/
theorem C8_counterexample :
    postgresql_pool_get_conn 1 [cfgC6] (some poolC8) (some 9) true
        { poolAllocOk := true, spawnResults := [], directResult := some 99 }
      = { reg := some poolC8,
          out := AcquireOut.direct (some 9) true (some { id := 99 }) } ∧
    ({ id := 99 } : PConn) ∉ poolC8.busy_conns := by
  decide

/-- C8 amended: an acquire that finds the free set empty and the pool not
below max_size leaves the registered pool — counters and both lists —
unchanged and returns the result of a direct Connect call made with the
caller context and callback; the returned connection (whose pooling fields
the connection creator leaves unset) is not linked to the pool and not
placed in the busy list. -/
theorem C8_amended (key : Nat) (configs : List PoolCfg) (p : Pool)
    (dr : Option Nat) (cb : Bool) (env : AcqEnv)
    (hfree : p.free_conns = []) (hmax : ¬ p.size < p.config.max_size) :
    postgresql_pool_get_conn key configs (some p) dr cb env
      = { reg := some p,
          out := AcquireOut.direct dr cb
            (env.directResult.map (fun i => { id := i })) } := by
  show getConnBody p dr cb env = _
  rw [getConnBody, hfree]
  rw [if_pos (show ([] : List PConn).isEmpty = true from rfl)]
  rw [if_neg hmax]

/-- C8 witness: the amended statement on the concrete full pool with a
failing direct allocation. -/
theorem C8_amended_witness :
    postgresql_pool_get_conn 1 [cfgC6] (some poolC8) (some 7) false
        { poolAllocOk := true, spawnResults := [], directResult := none }
      = { reg := some poolC8,
          out := AcquireOut.direct (some 7) false none } := by
  simpa using C8_amended 1 [cfgC6] poolC8 (some 7) false
    { poolAllocOk := true, spawnResults := [], directResult := none }
    rfl (by decide)

/-! ## C10: in-bounds accesses of registration by parameters -/

/-- A copy of n entries succeeds exactly when the source has at least n. -/
theorem copyStrArray_isSome (src : List String) (n : Nat) (h : n ≤ src.length) :
    ∃ out, copyStrArray src n = some out := by
  induction n with
  | zero => exact ⟨[], rfl⟩
  | succ k ih =>
      obtain ⟨out, hout⟩ := ih (Nat.le_of_succ_le h)
      have hk : k < src.length := h
      obtain ⟨s, hs⟩ : ∃ s, src.get? k = some s :=
        ⟨src.get ⟨k, hk⟩, List.get?_eq_get hk⟩
      rw [copyStrArray, hout, hs]
      exact ⟨out ++ [s], rfl⟩

/-- C10: registering by parameters performs only in-bounds accesses when the
keys array is non-null and the values array holds at least as many entries
as keys (result isSome: no undefined behaviour), and — because the length
of keys is counted BEFORE keys is tested for null — a null keys array is
dereferenced whatever values holds (result none). -/
theorem C10_params_create_access_safety (allocOk : Bool) (key : Nat)
    (minS maxS : Int) (ks vs : List String) (expand : Bool)
    (h : ks.length ≤ vs.length) :
    (postgresql_pool_params_create allocOk key minS maxS
        (some ks) (some vs) expand).isSome = true ∧
    postgresql_pool_params_create true key minS maxS none (some vs) expand
      = none := by
  constructor
  · cases allocOk with
    | false => rfl
    | true =>
        obtain ⟨kout, hkout⟩ := copyStrArray_isSome ks ks.length (le_refl _)
        obtain ⟨vout, hvout⟩ := copyStrArray_isSome vs ks.length h
        simp [postgresql_pool_params_create, strArrayLen, keysCopyStep,
          valuesCopyStep, hkout, hvout]
  · rfl

/-- C10 witness: one key with two values registers successfully, while a null
keys array is undefined behaviour even with the same values array. -/
theorem C10_params_create_witness :
    (postgresql_pool_params_create true 3 2 4
        (some ["host"]) (some ["localhost", "extra"]) false).isSome = true ∧
    postgresql_pool_params_create true 3 2 4 none (some ["localhost", "extra"]) false
      = none :=
  C10_params_create_access_safety true 3 2 4 ["host"] ["localhost", "extra"] false
    (by decide)

end DudaPG
